import Mathlib

/-!
Verification of the channel data model of gwpy (src/gwpy/detector/channel.py):
the channel-name parser, the Channel attribute setters and constructor, and
the ChannelList find/sieve operations, embedded shallowly with Python errors
made explicit through Except.
-/

/-- Python exception classes that the embedded code can raise. -/
inductive PyErr
  | typeError
  | valueError
  | attributeError
deriving DecidableEq

/-- Astropy unit objects, modelled from the external units capability as the
finite set of units the development needs. -/
inductive AUnit
  | hertz
  | meter
  | dimensionless
deriving DecidableEq

/-- Python type objects: the builtin type itself and the numeric and string
classes a dtype slot can meet. -/
inductive PyType
  | tType
  | tFloat
  | tInt
  | tStr
deriving DecidableEq

/-- Python values that can be passed to, or stored by, the sample_rate
property: None, plain numbers, strings, astropy Quantity objects and astropy
Unit objects. -/
inductive RateVal
  | none
  | int (n : Int)
  | float (q : ℚ)
  | str (s : String)
  | quantity (v : ℚ) (u : AUnit)
  | unit (u : AUnit)
deriving DecidableEq

/-- Values accepted by the unit property: None, a Unit object or a string. -/
inductive UnitArg
  | none
  | unit (u : AUnit)
  | str (s : String)
deriving DecidableEq

/-- Values accepted by the dtype property: None, a type object or a string. -/
inductive TypeArg
  | none
  | ty (t : PyType)
  | str (s : String)
deriving DecidableEq

/-- Equality of embedded computation results is decidable, so concrete runs
of the embedded code can be checked by evaluation. -/
instance {ε α : Type} [DecidableEq ε] [DecidableEq α] : DecidableEq (Except ε α) := fun x y =>
  match x, y with
  | .ok a, .ok b =>
      if h : a = b then isTrue (by rw [h]) else isFalse (by simp [h])
  | .error e, .error f =>
      if h : e = f then isTrue (by rw [h]) else isFalse (by simp [h])
  | .ok _, .error _ => isFalse (fun h => Except.noConfusion h)
  | .error _, .ok _ => isFalse (fun h => Except.noConfusion h)

/-- Digit characters folded into the natural number they denote. -/
def digitsVal (l : List Char) : Nat :=
  l.foldl (fun a c => 10 * a + (c.toNat - 48)) 0

/-- Modelled from the external Python builtin float applied to a string: an
optional sign followed by a decimal literal (digits with an optional
fractional part) parses to its value; any other string is rejected. -/
def pyFloatOfString (s : String) : Option ℚ :=
  let signed : Bool × List Char :=
    match s.data with
    | '-' :: t => (true, t)
    | '+' :: t => (false, t)
    | t => (false, t)
  let ds := signed.2.takeWhile Char.isDigit
  let rest := signed.2.dropWhile Char.isDigit
  let val : Option (Int × Nat) :=
    match rest with
    | [] => if ds.isEmpty then none else some (Int.ofNat (digitsVal ds), 1)
    | '.' :: fs =>
        if (ds.isEmpty && fs.isEmpty) || !(fs.all Char.isDigit) then none
        else some (Int.ofNat (digitsVal ds * 10 ^ fs.length + digitsVal fs), 10 ^ fs.length)
    | _ => none
  val.map (fun v => mkRat (if signed.1 then -v.1 else v.1) v.2)

/-- Modelled from the external Python builtin float on the values a
sample-rate slot can hold: numbers convert to themselves, numeric strings
parse (ValueError otherwise), None and unit objects are not numbers
(TypeError), and an astropy Quantity converts to its raw numeric value. -/
def pyFloat : RateVal → Except PyErr ℚ
  | .int n => .ok n
  | .float q => .ok q
  | .str s =>
      match pyFloatOfString s with
      | some q => .ok q
      | none => .error .valueError
  | .none => .error .typeError
  | .quantity v _ => .ok v
  | .unit _ => .error .typeError

/-- Source regex [A-Z]\d: matched at the start of the name. -/
def ifoMatch : List Char → Bool
  | c0 :: c1 :: c2 :: _ => c0.isUpper && c1.isDigit && c2 == ':'
  | _ => false

/-- Source name.split with separator ":" and maxsplit 1: the piece before the
first colon and the piece after it (the whole string when no colon occurs,
which the parser only reaches when one does). -/
def pySplitFirstColon : List Char → List Char × List Char
  | [] => ([], [])
  | c :: cs =>
      if c == ':' then ([], cs)
      else
        let p := pySplitFirstColon cs
        (c :: p.1, p.2)

/-- Characters matched by the source regex [-_]. -/
def isDelim (c : Char) : Bool := c == '-' || c == '_'

/-- Source re.split on [-_] with a maxsplit bound: each delimiter consumes one
split while splits remain, and the remainder (delimiters included) is the last
piece once the bound is spent. -/
def pySplitCChar : List Char → Nat → List (List Char)
  | [], _ => [[]]
  | c :: cs, fuel =>
      if isDelim c && fuel != 0 then
        [] :: pySplitCChar cs (fuel - 1)
      else
        match pySplitCChar cs fuel with
        | t :: ts => (c :: t) :: ts
        | [] => [[c]]

/-- Source parse_channel_name on a nonempty name: strip the interferometer
prefix when [A-Z]\d: matches, then split the remainder on [-_] with maxsplit 3
and keep the first three pieces as system, subsystem and signal. -/
def parseCore (name : List Char) : Option String × Option String × Option String × Option String :=
  let pref : Option String × List Char :=
    if ifoMatch name then
      let p := pySplitFirstColon name
      (some (String.mk p.1), p.2)
    else
      (none, name)
  match pySplitCChar pref.2 3 with
  | [] => (pref.1, none, none, none)
  | t0 :: ts =>
      (pref.1, some (String.mk t0), ts.head?.map String.mk, (ts.drop 1).head?.map String.mk)

/-- Source parse_channel_name: an empty (falsy) name gives four absent
components, otherwise the core parser runs. -/
def parse_channel_name (name : String) : Option String × Option String × Option String × Option String :=
  if name = "" then (none, none, none, none) else parseCore name.data

/-- One LIGO data channel: the name, the four fields derived from it by
parse_channel_name, and the sample_rate, unit, dtype and model slots as the
property setters store them. -/
structure Channel where
  name : String
  ifo : Option String
  system : Option String
  subsystem : Option String
  signal : Option String
  sample_rate : RateVal
  unit : Option AUnit
  dtype : PyType
  model : Option String
deriving DecidableEq

/-- Source sample_rate setter: a Unit instance is stored as-is, None stays
None, and anything else is float-coerced and wrapped as a hertz Quantity. -/
def set_sample_rate_val : RateVal → Except PyErr RateVal
  | .unit u => .ok (.unit u)
  | .none => .ok .none
  | rate => (pyFloat rate).map (fun v => .quantity v .hertz)

/-- Modelled from the external astropy units capability: aunits.Unit returns a
Unit object unchanged, resolves a known unit name, maps the empty string to
the dimensionless unit, and raises ValueError on an unknown name (the setter
never passes None here). -/
def aunits_Unit : UnitArg → Except PyErr AUnit
  | .unit u => .ok u
  | .str "Hz" => .ok .hertz
  | .str "m" => .ok .meter
  | .str "" => .ok .dimensionless
  | .str _ => .error .valueError
  | .none => .error .typeError

/-- Source unit setter: None stays None, anything else resolves through
aunits.Unit. -/
def set_unit_val : UnitArg → Except PyErr (Option AUnit)
  | .none => .ok Option.none
  | u => (aunits_Unit u).map some

/-- Source dtype setter: TypeError unless the argument is a type instance. -/
def set_dtype_val : TypeArg → Except PyErr PyType
  | .ty t => .ok t
  | _ => .error .typeError

/-- An upper-case ASCII letter shifted to lower case, as str.lower does. -/
def pyCharLower (c : Char) : Char :=
  if c.isUpper then Char.ofNat (c.toNat + 32) else c

/-- Modelled from the Python str.lower method on ASCII strings: each character
is lower-cased in place. -/
def pyLower (s : String) : String := String.mk (s.data.map pyCharLower)

/-- Source model setter, mdl and mdl.lower() or mdl: None passes through and a
string is lower-cased (the empty string maps to itself either way). -/
def set_model_val : Option String → Option String
  | Option.none => Option.none
  | some s => some (pyLower s)

/-- Source name setter: store the string and refresh the four derived fields
by re-parsing it. -/
def Channel.set_name (c : Channel) (n : String) : Channel :=
  let p := parse_channel_name n
  { c with name := n, ifo := p.1, system := p.2.1, subsystem := p.2.2.1, signal := p.2.2.2 }

/-- Assignment to the sample_rate attribute of an existing channel. -/
def Channel.set_sample_rate (c : Channel) (rate : RateVal) : Except PyErr Channel :=
  (set_sample_rate_val rate).map (fun r => { c with sample_rate := r })

/-- Assignment to the unit attribute of an existing channel. -/
def Channel.set_unit (c : Channel) (u : UnitArg) : Except PyErr Channel :=
  (set_unit_val u).map (fun v => { c with unit := v })

/-- Assignment to the dtype attribute of an existing channel. -/
def Channel.set_dtype (c : Channel) (t : TypeArg) : Except PyErr Channel :=
  (set_dtype_val t).map (fun d => { c with dtype := d })

/-- Assignment to the model attribute of an existing channel. -/
def Channel.set_model (c : Channel) (m : Option String) : Channel :=
  { c with model := set_model_val m }

/-- Python truthiness of a sample_rate argument: None, zero numbers and the
empty string are falsy; unit objects and nonzero quantities are truthy. -/
def RateVal.truthy : RateVal → Bool
  | .none => false
  | .int n => n != 0
  | .float q => q != 0
  | .str s => s != ""
  | .quantity v _ => v != 0
  | .unit _ => true

/-- Python truthiness of a unit argument. -/
def UnitArg.truthy : UnitArg → Bool
  | .none => false
  | .str s => s != ""
  | .unit _ => true

/-- Python truthiness of a dtype argument. -/
def TypeArg.truthy : TypeArg → Bool
  | .none => false
  | .str s => s != ""
  | .ty _ => true

/-- Source idiom sample_rate or ch.sample_rate. -/
def rateOr (a b : RateVal) : RateVal := if a.truthy then a else b

/-- Source idiom unit or ch.unit (the stored unit slot read back as an
argument value). -/
def unitOr (a : UnitArg) (b : Option AUnit) : UnitArg :=
  if a.truthy then a
  else match b with
    | Option.none => .none
    | some u => .unit u

/-- Source idiom dtype or ch.dtype: a stored dtype is a type object, hence
truthy. -/
def typeOr (a : TypeArg) (b : PyType) : TypeArg :=
  if a.truthy then a else .ty b

/-- Source idiom model or ch.model. -/
def strOr (a b : Option String) : Option String :=
  if (match a with | Option.none => false | some s => s != "") then a else b

/-- First positional argument of the Channel constructor: another Channel or a
name string. -/
inductive ChArg
  | chan (c : Channel)
  | str (s : String)

/-- The argument merge at the top of Channel.__init__: when the first argument
is a Channel, each falsy parameter is replaced by that channel's stored value
through the Python or idiom, and the name becomes that channel's name. -/
def Channel.initArgs (ch : ChArg) (sample_rate : RateVal) (unit : UnitArg)
    (dtype : TypeArg) (model : Option String) :
    RateVal × UnitArg × TypeArg × Option String × String :=
  match ch with
  | .chan c => (rateOr sample_rate c.sample_rate, unitOr unit c.unit,
      typeOr dtype c.dtype, strOr model c.model, c.name)
  | .str s => (sample_rate, unit, dtype, model, s)

/-- Source Channel.__init__: merge arguments from a Channel input, then run
the attribute setters in source order. The source line reads
self.dtype = type, so the builtin type object is assigned and the merged
dtype argument is dropped unused. -/
def Channel.init (ch : ChArg) (sample_rate : RateVal) (unit : UnitArg)
    (dtype : TypeArg) (model : Option String) : Except PyErr Channel := do
  let a := Channel.initArgs ch sample_rate unit dtype model
  let p := parse_channel_name a.2.2.2.2
  let sr ← set_sample_rate_val a.1
  let un ← set_unit_val a.2.1
  let dt ← set_dtype_val (.ty .tType)
  pure { name := a.2.2.2.2, ifo := p.1, system := p.2.1, subsystem := p.2.2.1,
         signal := p.2.2.2, sample_rate := sr, unit := un, dtype := dt,
         model := set_model_val a.2.2.2.1 }

/-- Modelled from the external re module: searching a metacharacter-free
pattern within a string succeeds exactly when the pattern occurs as a
contiguous substring. -/
def searchSub (pat : List Char) : List Char → Bool
  | [] => pat.isEmpty
  | c :: rest => pat.isPrefixOf (c :: rest) || searchSub pat rest

/-- The name argument of sieve: a plain pattern string or a compiled pattern
object carrying its pattern string and flags. -/
inductive NameArg
  | str (pat : String)
  | compiled (pat : String) (flags : Nat)

/-- Source ChannelList.find: scan in order, return the index of the first
element whose name equals the argument, raise ValueError when none does. -/
def ChannelList.find (l : List Channel) (name : String) : Except PyErr Nat :=
  match l with
  | [] => .error .valueError
  | chan :: rest =>
      if name = chan.name then .ok 0
      else (ChannelList.find rest name).map Nat.succ

/-- A Python list comprehension whose predicate can raise: elements are tested
left to right and the first raise aborts the whole comprehension. -/
def filterE (p : α → Except PyErr Bool) : List α → Except PyErr (List α)
  | [] => .ok []
  | x :: xs => do
      let b ← p x
      let rest ← filterE p xs
      pure (if b then x :: rest else rest)

/-- Source ChannelList.sieve: extract the pattern string (and flags) from a
compiled pattern argument; with exact_match the source calls name.endwith,
an attribute neither strings nor None have, so AttributeError is raised;
re.compile raises TypeError on a None pattern; then the name, sample_rate and
sample_range filters run in order, the rate ones converting each stored rate
with float. -/
def ChannelList.sieve (self : List Channel) (name : Option NameArg)
    (sample_rate : Option ℚ) (sample_range : Option (ℚ × ℚ))
    (exact_match : Bool) : Except PyErr (List Channel) := do
  let pat : Option String :=
    match name with
    | Option.none => Option.none
    | some (.str p) => some p
    | some (.compiled p _) => some p
  if exact_match then
    throw .attributeError
  let regexp : String ←
    match pat with
    | Option.none => throw .typeError
    | some p => pure p
  let c := self
  let c := c.filter (fun entry => searchSub regexp.data entry.name.data)
  let c ←
    match sample_rate with
    | Option.none => pure c
    | some r => filterE (fun entry => (pyFloat entry.sample_rate).map (fun v => v == r)) c
  let c ←
    match sample_range with
    | Option.none => pure c
    | some rng => filterE (fun entry =>
        (pyFloat entry.sample_rate).map (fun v => rng.1 ≤ v && v ≤ rng.2)) c
  pure c

/-- A spent split bound leaves the remainder as a single piece. -/
theorem pySplitCChar_zero (t : List Char) : pySplitCChar t 0 = [t] := by
  induction t with
  | nil => rfl
  | cons c cs ih => simp [pySplitCChar, ih]

/-- A delimiter-free list is a single piece at any split bound. -/
theorem pySplitCChar_nodelim (t : List Char) (fuel : Nat)
    (ht : ∀ c ∈ t, isDelim c = false) : pySplitCChar t fuel = [t] := by
  induction t with
  | nil => rfl
  | cons c cs ih =>
      have hc : isDelim c = false := ht c (List.mem_cons_self ..)
      simp [pySplitCChar, hc, ih (fun x hx => ht x (List.mem_cons_of_mem _ hx))]

/-- While splits remain, a delimiter-free token followed by a delimiter is cut
off as one piece and splitting continues past the delimiter. -/
theorem pySplitCChar_token (t rest : List Char) (fuel : Nat) (d : Char)
    (ht : ∀ c ∈ t, isDelim c = false) (hd : isDelim d = true) (hf : fuel ≠ 0) :
    pySplitCChar (t ++ d :: rest) fuel = t :: pySplitCChar rest (fuel - 1) := by
  induction t with
  | nil => simp [pySplitCChar, hd, hf]
  | cons c cs ih =>
      have hc : isDelim c = false := ht c (List.mem_cons_self ..)
      simp [pySplitCChar, hc, ih (fun x hx => ht x (List.mem_cons_of_mem _ hx))]

/-- A string rebuilt from its character data is itself. -/
theorem string_mk_data (s : String) : String.mk s.data = s := rfl

/-- C7: for every channel name with more than three delimiter-separated
segments, parsing captures only the first three segments as system, subsystem
and signal, dropping the remainder, and re-parsing the name rebuilt from those
three segments returns the same triple. -/
theorem C7_parse_drops_extra_segments (s0 s1 s2 s3 d1 d2 d3 : String)
    (h0 : ∀ c ∈ s0.data, isDelim c = false)
    (h1 : ∀ c ∈ s1.data, isDelim c = false)
    (h2 : ∀ c ∈ s2.data, isDelim c = false)
    (hd1 : d1 = "-" ∨ d1 = "_") (hd2 : d2 = "-" ∨ d2 = "_") (hd3 : d3 = "-" ∨ d3 = "_")
    (hifo : ifoMatch (s0 ++ d1 ++ s1 ++ d2 ++ s2 ++ d3 ++ s3).data = false)
    (hifo2 : ifoMatch (s0 ++ "-" ++ s1 ++ "_" ++ s2).data = false) :
    parse_channel_name (s0 ++ d1 ++ s1 ++ d2 ++ s2 ++ d3 ++ s3)
        = (none, some s0, some s1, some s2)
    ∧ parse_channel_name (s0 ++ "-" ++ s1 ++ "_" ++ s2)
        = (none, some s0, some s1, some s2) := by
  obtain ⟨e1, he1d, he1⟩ : ∃ c, d1.data = [c] ∧ isDelim c = true := by
    rcases hd1 with rfl | rfl
    · exact ⟨'-', rfl, rfl⟩
    · exact ⟨'_', rfl, rfl⟩
  obtain ⟨e2, he2d, he2⟩ : ∃ c, d2.data = [c] ∧ isDelim c = true := by
    rcases hd2 with rfl | rfl
    · exact ⟨'-', rfl, rfl⟩
    · exact ⟨'_', rfl, rfl⟩
  obtain ⟨e3, he3d, he3⟩ : ∃ c, d3.data = [c] ∧ isDelim c = true := by
    rcases hd3 with rfl | rfl
    · exact ⟨'-', rfl, rfl⟩
    · exact ⟨'_', rfl, rfl⟩
  have hdata : (s0 ++ d1 ++ s1 ++ d2 ++ s2 ++ d3 ++ s3).data
      = s0.data ++ e1 :: (s1.data ++ e2 :: (s2.data ++ e3 :: s3.data)) := by
    simp [String.data_append, he1d, he2d, he3d]
  have hdata2 : (s0 ++ "-" ++ s1 ++ "_" ++ s2).data
      = s0.data ++ '-' :: (s1.data ++ '_' :: s2.data) := by
    simp [String.data_append]
  have hsplit : pySplitCChar (s0.data ++ e1 :: (s1.data ++ e2 :: (s2.data ++ e3 :: s3.data))) 3
      = [s0.data, s1.data, s2.data, s3.data] := by
    rw [pySplitCChar_token _ _ _ _ h0 he1 (by decide),
        show (3 : Nat) - 1 = 2 from rfl,
        pySplitCChar_token _ _ _ _ h1 he2 (by decide),
        show (2 : Nat) - 1 = 1 from rfl,
        pySplitCChar_token _ _ _ _ h2 he3 (by decide),
        show (1 : Nat) - 1 = 0 from rfl,
        pySplitCChar_zero]
  have hsplit2 : pySplitCChar (s0.data ++ '-' :: (s1.data ++ '_' :: s2.data)) 3
      = [s0.data, s1.data, s2.data] := by
    rw [pySplitCChar_token _ _ _ '-' h0 (by decide) (by decide),
        show (3 : Nat) - 1 = 2 from rfl,
        pySplitCChar_token _ _ _ '_' h1 (by decide) (by decide),
        show (2 : Nat) - 1 = 1 from rfl,
        pySplitCChar_nodelim _ _ h2]
  have hne : (s0 ++ d1 ++ s1 ++ d2 ++ s2 ++ d3 ++ s3) ≠ "" := by
    intro h
    have h2 := congrArg String.data h
    rw [hdata] at h2
    simp at h2
  have hne2 : (s0 ++ "-" ++ s1 ++ "_" ++ s2) ≠ "" := by
    intro h
    have h2 := congrArg String.data h
    rw [hdata2] at h2
    simp at h2
  rw [hdata] at hifo
  rw [hdata2] at hifo2
  constructor
  · rw [parse_channel_name, if_neg hne, hdata]
    simp [parseCore, hifo, hsplit, string_mk_data]
  · rw [parse_channel_name, if_neg hne2, hdata2]
    simp [parseCore, hifo2, hsplit2, string_mk_data]

/-- C7 witness: the parse of SYS-SUB_SIG_EXTRA_MORE keeps only the first
three segments and re-parsing SYS-SUB_SIG gives the same triple. -/
theorem C7_parse_drops_extra_segments_witness :
    parse_channel_name ("SYS" ++ "-" ++ "SUB" ++ "_" ++ "SIG" ++ "_" ++ "EXTRA_MORE")
        = (none, some "SYS", some "SUB", some "SIG")
    ∧ parse_channel_name ("SYS" ++ "-" ++ "SUB" ++ "_" ++ "SIG")
        = (none, some "SYS", some "SUB", some "SIG") :=
  C7_parse_drops_extra_segments "SYS" "SUB" "SIG" "EXTRA_MORE" "-" "_" "_"
    (by decide) (by decide) (by decide) (Or.inl rfl) (Or.inr rfl) (Or.inr rfl)
    (by decide) (by decide)

/-- Mapping a function over an Except result hits ok exactly on ok. -/
theorem except_map_ok_iff (f : α → β) (x : Except PyErr α) (b : β) :
    x.map f = .ok b ↔ ∃ a, x = .ok a ∧ f a = b := by
  cases x <;> simp [Except.map]

/-- Mapping a function over an Except result keeps its error. -/
theorem except_map_error_iff (f : α → β) (x : Except PyErr α) (e : PyErr) :
    x.map f = .error e ↔ x = .error e := by
  cases x <;> simp [Except.map]

/-- C8: find scans in insertion order and returns the index of the first
element whose name equals the argument exactly, and raises ValueError exactly
when no element matches, in particular on an empty collection. -/
theorem C8_find_first_match (l : List Channel) (name : String) :
    (∀ i : Nat, ChannelList.find l name = .ok i ↔
      ((∃ chan, l[i]? = some chan ∧ chan.name = name) ∧
        ∀ j, j < i → ∀ chan, l[j]? = some chan → chan.name ≠ name))
    ∧ (ChannelList.find l name = .error .valueError ↔ ∀ chan ∈ l, chan.name ≠ name) := by
  induction l with
  | nil =>
      constructor
      · intro i
        simp [ChannelList.find]
      · simp [ChannelList.find]
  | cons c rest ih =>
      constructor
      · intro i
        by_cases hc : name = c.name
        · simp only [ChannelList.find, if_pos hc]
          cases i with
          | zero =>
              simp only [List.getElem?_cons_zero]
              constructor
              · intro _
                exact ⟨⟨c, rfl, hc.symm⟩, by omega⟩
              · intro _
                trivial
          | succ n =>
              constructor
              · intro h
                exact absurd h (by simp)
              · rintro ⟨-, hall⟩
                exact absurd (hall 0 (by omega) c List.getElem?_cons_zero) (by simp [hc])
        · simp only [ChannelList.find, if_neg hc]
          cases i with
          | zero =>
              constructor
              · intro h
                rw [except_map_ok_iff] at h
                obtain ⟨a, -, ha⟩ := h
                exact absurd ha (by simp)
              · rintro ⟨⟨chan, h1, h2⟩, -⟩
                rw [List.getElem?_cons_zero, Option.some_inj] at h1
                exact absurd (h1 ▸ h2) (fun h => hc h.symm)
          | succ n =>
              have hmap : (ChannelList.find rest name).map Nat.succ = .ok (n + 1)
                  ↔ ChannelList.find rest name = .ok n := by
                rw [except_map_ok_iff]
                constructor
                · rintro ⟨a, ha, hs⟩
                  obtain rfl : a = n := by omega
                  exact ha
                · intro h
                  exact ⟨n, h, rfl⟩
              rw [hmap, ih.1 n]
              constructor
              · rintro ⟨⟨chan, h1, h2⟩, hall⟩
                refine ⟨⟨chan, by simpa using h1, h2⟩, ?_⟩
                intro j hj chan2 hch
                cases j with
                | zero =>
                    rw [List.getElem?_cons_zero, Option.some_inj] at hch
                    exact hch ▸ (fun h => hc h.symm)
                | succ m =>
                    exact hall m (by omega) chan2 (by simpa using hch)
              · rintro ⟨⟨chan, h1, h2⟩, hall⟩
                refine ⟨⟨chan, by simpa using h1, h2⟩, ?_⟩
                intro j hj chan2 hch
                exact hall (j + 1) (by omega) chan2 (by simpa using hch)
      · by_cases hc : name = c.name
        · simp only [ChannelList.find, if_pos hc]
          constructor
          · intro h
            exact absurd h (by simp)
          · intro hall
            exact absurd (hall c (List.mem_cons_self ..)) (by simp [hc])
        · simp only [ChannelList.find, if_neg hc]
          rw [except_map_error_iff, ih.2]
          simp only [List.forall_mem_cons]
          constructor
          · intro h
            exact ⟨fun he => hc he.symm, h⟩
          · intro h
            exact h.2

/-- Binding a successful Except result runs the continuation. -/
theorem except_bind_ok (a : α) (f : α → Except PyErr β) :
    (Except.ok a : Except PyErr α) >>= f = f a := rfl

/-- Binding a failed Except result keeps the error. -/
theorem except_bind_error (e : PyErr) (f : α → Except PyErr β) :
    (Except.error e : Except PyErr α) >>= f = Except.error e := rfl

/-- Pure on the Except monad is ok. -/
theorem except_pure (a : α) : (pure a : Except PyErr α) = Except.ok a := rfl

/-- Shapes the sample_rate slot can hold once its setter has run: absent, a
Unit object stored as-is, or a hertz-valued Quantity. -/
def rateInv (r : RateVal) : Prop :=
  r = .none ∨ (∃ u, r = .unit u) ∨ ∃ v, r = .quantity v .hertz

/-- rateInv lifted over a channel computation that may raise. -/
def rateInvE : Except PyErr Channel → Prop
  | .ok c => rateInv c.sample_rate
  | .error _ => True

/-- Whatever the sample_rate setter stores has one of the three shapes. -/
theorem set_sample_rate_val_shape (r v : RateVal)
    (h : set_sample_rate_val r = .ok v) : rateInv v := by
  cases r with
  | none =>
      simp only [set_sample_rate_val, Except.ok.injEq] at h
      exact Or.inl h.symm
  | unit u =>
      simp only [set_sample_rate_val, Except.ok.injEq] at h
      exact Or.inr (Or.inl ⟨u, h.symm⟩)
  | int n =>
      rw [show set_sample_rate_val (.int n)
            = (pyFloat (.int n)).map (fun w => .quantity w .hertz) from rfl,
          except_map_ok_iff] at h
      obtain ⟨a, -, ha⟩ := h
      exact Or.inr (Or.inr ⟨a, ha.symm⟩)
  | float q =>
      rw [show set_sample_rate_val (.float q)
            = (pyFloat (.float q)).map (fun w => .quantity w .hertz) from rfl,
          except_map_ok_iff] at h
      obtain ⟨a, -, ha⟩ := h
      exact Or.inr (Or.inr ⟨a, ha.symm⟩)
  | str s =>
      rw [show set_sample_rate_val (.str s)
            = (pyFloat (.str s)).map (fun w => .quantity w .hertz) from rfl,
          except_map_ok_iff] at h
      obtain ⟨a, -, ha⟩ := h
      exact Or.inr (Or.inr ⟨a, ha.symm⟩)
  | quantity v u =>
      rw [show set_sample_rate_val (.quantity v u)
            = (pyFloat (.quantity v u)).map (fun w => .quantity w .hertz) from rfl,
          except_map_ok_iff] at h
      obtain ⟨a, -, ha⟩ := h
      exact Or.inr (Or.inr ⟨a, ha.symm⟩)

/-- C6 amended: construction and every setter preserve the shape of the
sample_rate slot: when present it is either a Unit instance stored unchanged
or a hertz-valued Quantity produced by float coercion, with no sign
restriction on its value. -/
theorem C6_sample_rate_shape :
    (∀ ch sr u d m, rateInvE (Channel.init ch sr u d m))
    ∧ (∀ c rate, rateInvE (Channel.set_sample_rate c rate))
    ∧ (∀ c n, rateInv c.sample_rate → rateInv (Channel.set_name c n).sample_rate)
    ∧ (∀ c u, rateInv c.sample_rate → rateInvE (Channel.set_unit c u))
    ∧ (∀ c t, rateInv c.sample_rate → rateInvE (Channel.set_dtype c t))
    ∧ (∀ c m, rateInv c.sample_rate → rateInv (Channel.set_model c m).sample_rate) := by
  refine ⟨?_, ?_, ?_, ?_, ?_, ?_⟩
  · intro ch sr u d m
    rw [Channel.init]
    cases hsr : set_sample_rate_val (Channel.initArgs ch sr u d m).1 with
    | error e => simp [hsr, except_bind_error, rateInvE]
    | ok v =>
        cases hun : set_unit_val (Channel.initArgs ch sr u d m).2.1 with
        | error e => simp [hsr, hun, except_bind_ok, except_bind_error, rateInvE]
        | ok w =>
            simp [hsr, hun, except_bind_ok, except_pure, rateInvE, set_dtype_val]
            exact set_sample_rate_val_shape _ _ hsr
  · intro c rate
    rw [Channel.set_sample_rate]
    cases hsr : set_sample_rate_val rate with
    | error e => simp [Except.map, rateInvE]
    | ok v =>
        simp [Except.map, rateInvE]
        exact set_sample_rate_val_shape _ _ hsr
  · intro c n h
    exact h
  · intro c u h
    rw [Channel.set_unit]
    cases hun : set_unit_val u with
    | error e => simp [Except.map, rateInvE]
    | ok w => simpa [Except.map, rateInvE] using h
  · intro c t h
    rw [Channel.set_dtype]
    cases hdt : set_dtype_val t with
    | error e => simp [Except.map, rateInvE]
    | ok w => simpa [Except.map, rateInvE] using h
  · intro c m h
    exact h

/-- C6 witness: a channel built with rate 16 satisfies the shape invariant,
and the model setter preserves it on a concrete channel. -/
theorem C6_sample_rate_shape_witness :
    rateInvE (Channel.init (.str "A1:TEST") (.int 16) .none .none none)
    ∧ rateInv ((Channel.set_model
        { name := "A1:TEST", ifo := some "A1", system := some "TEST",
          subsystem := none, signal := none, sample_rate := .none, unit := none,
          dtype := .tType, model := none } (some "M")).sample_rate) :=
  by
  refine ⟨C6_sample_rate_shape.1 (.str "A1:TEST") (.int 16) .none .none none, ?_⟩
  exact C6_sample_rate_shape.2.2.2.2.2 _ (some "M") (Or.inl rfl)

/-- C6 counterexample: a channel constructed with rate -1 stores the present
quantity -1 hertz, which is negative, and a channel constructed with a Unit
argument stores the Unit object itself, not a frequency quantity. -/
theorem C6_counterexample :
    (Channel.init (.str "A1:TEST") (.int (-1)) .none .none none).map Channel.sample_rate
        = .ok (.quantity (-1) .hertz)
    ∧ ((-1 : ℚ) < 0)
    ∧ (Channel.init (.str "A1:TEST") (.unit .meter) .none .none none).map Channel.sample_rate
        = .ok (.unit .meter) :=
  ⟨by decide, by norm_num, by decide⟩

/-- C5 amended: assigning a string that does not parse as a number to
sample_rate, directly or through the constructor, raises ValueError (raised
by float, not TypeError); an absent input is stored as absent and a numeric
input is wrapped as a hertz-valued quantity. -/
theorem C5_sample_rate_errors (s : String) (h : pyFloatOfString s = none) :
    (∀ c : Channel, Channel.set_sample_rate c (.str s) = .error .valueError)
    ∧ Channel.init (.str "X1:TEST") (.str s) .none .none none = .error .valueError
    ∧ set_sample_rate_val .none = .ok .none
    ∧ (∀ q : ℚ, set_sample_rate_val (.float q) = .ok (.quantity q .hertz))
    ∧ (∀ n : ℤ, set_sample_rate_val (.int n) = .ok (.quantity n .hertz)) := by
  have hval : set_sample_rate_val (.str s) = .error .valueError := by
    rw [show set_sample_rate_val (.str s)
          = (pyFloat (.str s)).map (fun w => .quantity w .hertz) from rfl,
        pyFloat, h]
    rfl
  refine ⟨?_, ?_, rfl, fun q => rfl, fun n => rfl⟩
  · intro c
    rw [Channel.set_sample_rate, hval]
    rfl
  · rw [Channel.init]
    show (set_sample_rate_val (.str s) >>= fun sr => _) = Except.error PyErr.valueError
    rw [hval, except_bind_error]

/-- C5 witness: the string abc does not parse as a number, the setter and the
constructor raise ValueError on it, None stays absent and 16 becomes a hertz
quantity. -/
theorem C5_sample_rate_errors_witness :
    Channel.init (.str "X1:TEST") (.str "abc") .none .none none = .error .valueError
    ∧ set_sample_rate_val .none = .ok .none
    ∧ set_sample_rate_val (.int 16) = .ok (.quantity 16 .hertz) :=
  ⟨(C5_sample_rate_errors "abc" (by decide)).2.1,
   (C5_sample_rate_errors "abc" (by decide)).2.2.1,
   (C5_sample_rate_errors "abc" (by decide)).2.2.2.2 16⟩

/-- C5 counterexample: on the string abc the error raised is ValueError, not
the TypeError the claim states. -/
theorem C5_counterexample :
    Channel.init (.str "X1:TEST") (.str "abc") .none .none none = .error .valueError
    ∧ PyErr.valueError ≠ PyErr.typeError :=
  ⟨by decide, by decide⟩

/-- C10: the sample_rate setter stores a Unit instance unchanged, while a
Quantity input is passed through float coercion and re-wrapped as a
hertz-valued Quantity, so a Quantity whose unit is not hertz is never stored
as-is. -/
theorem C10_unit_stored_quantity_rewrapped :
    (∀ u, set_sample_rate_val (.unit u) = .ok (.unit u))
    ∧ (∀ v u, set_sample_rate_val (.quantity v u) = .ok (.quantity v .hertz))
    ∧ (∀ v u, u ≠ .hertz → set_sample_rate_val (.quantity v u) ≠ .ok (.quantity v u)) := by
  refine ⟨fun u => rfl, fun v u => rfl, fun v u hu h => ?_⟩
  simp only [set_sample_rate_val, pyFloat, Except.map, Except.ok.injEq,
    RateVal.quantity.injEq] at h
  exact hu h.2.symm

/-- C10 witness: a meter Unit is stored as-is, while a 5 meter Quantity is
re-wrapped as 5 hertz and is not stored as-is. -/
theorem C10_unit_stored_quantity_rewrapped_witness :
    set_sample_rate_val (.unit .meter) = .ok (.unit .meter)
    ∧ set_sample_rate_val (.quantity 5 .meter) = .ok (.quantity 5 .hertz)
    ∧ set_sample_rate_val (.quantity 5 .meter) ≠ .ok (.quantity 5 .meter) :=
  ⟨C10_unit_stored_quantity_rewrapped.1 .meter,
   C10_unit_stored_quantity_rewrapped.2.1 5 .meter,
   C10_unit_stored_quantity_rewrapped.2.2 5 .meter (by decide)⟩

/-- C1: evaluation at the failing input: constructing from an existing channel
with an explicit dtype argument ignores that argument and assigns the builtin
type object (the source line reads self.dtype = type), while the concrete
override scenario copies name, unit and model from the source channel and
overrides the sample rate to 2048 Hz. -/
theorem C1_dtype_not_overridden_eval :
    ((Channel.init (.str "X1:SYS-SUB") .none .none .none none).bind fun ch =>
        Channel.init (.chan ch) .none .none (.ty .tFloat) none).map Channel.dtype
      = .ok PyType.tType
    ∧ PyType.tType ≠ PyType.tFloat
    ∧ ((Channel.init (.str "X1:SYS-SUB") (.int 4096) .none .none (some "MDL")).bind fun ch =>
        Channel.init (.chan ch) (.int 2048) .none .none none)
      = .ok { name := "X1:SYS-SUB", ifo := some "X1", system := some "SYS",
              subsystem := some "SUB", signal := none,
              sample_rate := .quantity 2048 .hertz, unit := none, dtype := .tType,
              model := some "mdl" } :=
  ⟨by decide, by decide, by decide⟩

/-- C2: evaluation at the failing input: constructing from a channel with
dtype given as the string not-a-type succeeds and stores the builtin type
object (the argument is dropped by self.dtype = type), whereas assigning the
same string directly to the dtype attribute raises TypeError. -/
theorem C2_dtype_ctor_ignores_argument_eval :
    ((Channel.init (.str "X1:SYS-SUB") .none .none .none none).bind fun ch =>
        Channel.init (.chan ch) .none .none (.str "not-a-type") none).map Channel.dtype
      = .ok PyType.tType
    ∧ ((Channel.init (.str "X1:SYS-SUB") .none .none .none none).bind fun ch =>
        Channel.set_dtype ch (.str "not-a-type"))
      = .error PyErr.typeError :=
  ⟨by decide, by decide⟩

/-- C3: evaluation at the failing input: sieve called with no predicate
parameters raises TypeError on every collection, because re.compile runs on
the absent name before the name-is-present guard, instead of returning a copy
of the collection. -/
theorem C3_sieve_no_predicates_eval :
    ∀ l : List Channel, ChannelList.sieve l none none none false = .error PyErr.typeError :=
  fun _ => rfl

/-- C4: evaluation at the failing input: sieve with exact_match true raises
AttributeError on every collection and name argument, because the source
calls name.endwith, an attribute strings do not have, instead of anchoring
the pattern and filtering. -/
theorem C4_sieve_exact_match_eval :
    ∀ (l : List Channel) (n : Option NameArg) (sr : Option ℚ) (rng : Option (ℚ × ℚ)),
      ChannelList.sieve l n sr rng true = .error PyErr.attributeError :=
  fun _ _ _ _ => rfl

/-- A raising filter raises when every element either tests to a Boolean or
raises TypeError and at least one element raises TypeError. -/
theorem filterE_error (p : α → Except PyErr Bool) (l : List α)
    (hall : ∀ x ∈ l, p x = .error .typeError ∨ ∃ b, p x = .ok b)
    (hex : ∃ x ∈ l, p x = .error .typeError) :
    filterE p l = .error .typeError := by
  induction l with
  | nil =>
      obtain ⟨x, hx, -⟩ := hex
      cases hx
  | cons a as ih =>
      cases hpa : p a with
      | error e =>
          have he : e = .typeError := by
            rcases hall a (List.mem_cons_self ..) with h | ⟨b, hb⟩
            · rw [hpa] at h
              exact Except.error.inj h
            · rw [hpa] at hb
              cases hb
          subst he
          simp [filterE, hpa, except_bind_error]
      | ok b =>
          obtain ⟨x, hx, hpx⟩ := hex
          rcases List.mem_cons.mp hx with rfl | hxs
          · rw [hpa] at hpx
            cases hpx
          · have herr := ih (fun y hy => hall y (List.mem_cons_of_mem _ hy)) ⟨x, hxs, hpx⟩
            simp [filterE, hpa, herr, except_bind_ok, except_bind_error]

/-- Sieve with a plain name pattern, an exact rate and no exact_match runs the
name filter and then the raising rate filter. -/
theorem sieve_rate_some (l : List Channel) (pat : String) (r : ℚ)
    (rng : Option (ℚ × ℚ)) :
    ChannelList.sieve l (some (.str pat)) (some r) rng false
      = (filterE (fun e => (pyFloat e.sample_rate).map (fun v => v == r))
          (l.filter (fun e => searchSub pat.data e.name.data)) >>= fun c =>
         ((match rng with
           | Option.none => pure c
           | some rg => filterE (fun e => (pyFloat e.sample_rate).map
               (fun v => rg.1 ≤ v && v ≤ rg.2)) c) >>= fun c2 => pure c2)) := by
  cases rng <;> rfl

/-- Sieve with a plain name pattern, no exact rate and a rate range runs the
name filter and then the raising range filter. -/
theorem sieve_range_some (l : List Channel) (pat : String) (rg : ℚ × ℚ) :
    ChannelList.sieve l (some (.str pat)) Option.none (some rg) false
      = (filterE (fun e => (pyFloat e.sample_rate).map
            (fun v => rg.1 ≤ v && v ≤ rg.2))
          (l.filter (fun e => searchSub pat.data e.name.data)) >>= fun c2 => pure c2) := rfl

/-- C9 amended: when a channel whose sample_rate is absent passes the name
predicate, a sieve call with the sample_rate or sample_range predicate active
raises TypeError from converting the absent rate with float, instead of
silently excluding that channel. -/
theorem C9_absent_rate_raises (l : List Channel) (pat : String)
    (sr : Option ℚ) (rng : Option (ℚ × ℚ))
    (hwf : ∀ chan ∈ l, rateInv chan.sample_rate)
    (hactive : sr ≠ Option.none ∨ rng ≠ Option.none)
    (hex : ∃ chan ∈ l, searchSub pat.data chan.name.data = true
        ∧ chan.sample_rate = .none) :
    ChannelList.sieve l (some (.str pat)) sr rng false = .error .typeError := by
  obtain ⟨ch0, hch0, hsearch, hnone⟩ := hex
  have hmem : ch0 ∈ l.filter (fun e => searchSub pat.data e.name.data) :=
    List.mem_filter.mpr ⟨hch0, hsearch⟩
  cases sr with
  | some r =>
      have herr : filterE (fun e => (pyFloat e.sample_rate).map (fun v => v == r))
          (l.filter (fun e => searchSub pat.data e.name.data)) = .error .typeError := by
        apply filterE_error
        · intro x hx
          rcases hwf x (List.mem_filter.mp hx).1 with h | ⟨u, h⟩ | ⟨v, h⟩
          · left
            rw [h]
            rfl
          · left
            rw [h]
            rfl
          · right
            exact ⟨v == r, by rw [h]; rfl⟩
        · exact ⟨ch0, hmem, by rw [hnone]; rfl⟩
      rw [sieve_rate_some, herr, except_bind_error]
  | none =>
      cases rng with
      | none =>
          exfalso
          rcases hactive with h | h <;> exact h rfl
      | some rg =>
          have herr : filterE (fun e => (pyFloat e.sample_rate).map
              (fun v => rg.1 ≤ v && v ≤ rg.2))
              (l.filter (fun e => searchSub pat.data e.name.data)) = .error .typeError := by
            apply filterE_error
            · intro x hx
              rcases hwf x (List.mem_filter.mp hx).1 with h | ⟨u, h⟩ | ⟨v, h⟩
              · left
                rw [h]
                rfl
              · left
                rw [h]
                rfl
              · right
                exact ⟨rg.1 ≤ v && v ≤ rg.2, by rw [h]; rfl⟩
            · exact ⟨ch0, hmem, by rw [hnone]; rfl⟩
          rw [sieve_range_some, herr, except_bind_error]

/-- C9 witness: on a concrete two-channel collection whose first channel has
an absent rate and matches the pattern, sieve with an exact rate raises
TypeError. -/
theorem C9_absent_rate_raises_witness :
    ChannelList.sieve
      [{ name := "A1:AAA", ifo := some "A1", system := some "AAA", subsystem := none,
         signal := none, sample_rate := .none, unit := none, dtype := .tType,
         model := none },
       { name := "A1:BBB", ifo := some "A1", system := some "BBB", subsystem := none,
         signal := none, sample_rate := .quantity 16 .hertz, unit := none,
         dtype := .tType, model := none }]
      (some (.str "A")) (some 16) none false = .error .typeError := by
  apply C9_absent_rate_raises
  · intro chan h
    rcases List.mem_cons.mp h with rfl | h2
    · exact Or.inl rfl
    · rcases List.mem_cons.mp h2 with rfl | h3
      · exact Or.inr (Or.inr ⟨16, rfl⟩)
      · cases h3
  · exact Or.inl (by simp)
  · refine ⟨_, List.mem_cons_self .., by decide, rfl⟩

/-- C9 counterexample: the collection contains a channel with an absent rate,
yet sieve with the rate predicate active succeeds, because the name filter
drops that channel before the rate conversion runs. -/
theorem C9_counterexample :
    ((Channel.init (.str "A1:AAA") .none .none .none none).bind fun a =>
     (Channel.init (.str "A1:BBB") (.int 16) .none .none none).bind fun b =>
     ChannelList.sieve [a, b] (some (.str "BBB")) (some 16) none false).map
        (List.map Channel.name)
      = .ok ["A1:BBB"]
    ∧ (Channel.init (.str "A1:AAA") .none .none .none none).map Channel.sample_rate
      = .ok .none :=
  ⟨by decide, by decide⟩
